import Mathlib

/-
Verification development for the heatmap-overlay image formatter
(eli5/formatters/image.py).  Python floats are modelled as rationals,
numpy arrays as nested lists, PIL images as a structure carrying width,
height, mode and pixel rows.  Fallible Python functions return Except.
-/

namespace EliImage

/-- A Python scalar value that may be passed as the alpha limit.
Note that in Python, bool is a subclass of int, so isinstance checks
against (float, int) accept booleans. -/
inductive PyScalar where
  | float (q : ℚ)
  | int (n : ℤ)
  | bool (b : Bool)
  | str (s : String)
  | obj (tag : String)
  deriving DecidableEq, Repr

/-- The Python exception classes raised by the formatter.
The ValueError constructor realises what the specification calls a
RangeError; TypeError is TypeError. -/
inductive PyError where
  | valueError
  | typeError
  deriving DecidableEq, Repr

/-- Embeds the Python check isinstance(x, (float, int)); true also for
booleans since bool is a subclass of int. -/
def isNumericInstance : PyScalar → Bool
  | .float _ => true
  | .int _ => true
  | .bool _ => true
  | .str _ => false
  | .obj _ => false

/-- The numeric value of a scalar that passed the isinstance check
(booleans count as 1 and 0). -/
def numValue : PyScalar → ℚ
  | .float q => q
  | .int n => (n : ℚ)
  | .bool b => if b then 1 else 0
  | .str _ => 0
  | .obj _ => 0

/-- A rank-2 numpy float array. -/
abbrev Grid2 := List (List ℚ)

/-- One RGBA pixel of a rank-3 float [0, 1] array, channel order R,G,B,A. -/
structure Pixel where
  r : ℚ
  g : ℚ
  b : ℚ
  a : ℚ
  deriving DecidableEq, Repr

/-- A rank-3 numpy float array with four channels (H rows of W pixels). -/
abbrev Grid3 := List (List Pixel)

/-- Elementwise np.minimum of a rank-2 array and a scalar. -/
def cap_grid (a : Grid2) (limit : ℚ) : Grid2 :=
  a.map (fun row => row.map (fun x => min x limit))

/-- Embedding of cap_alpha (image.py lines 159-200): returns the input
unchanged when alpha_limit is None; for a float/int (or bool) limit in
[0, 1] returns np.minimum(alpha_arr, alpha_limit); raises ValueError for
a numeric limit outside [0, 1] and TypeError for a non-numeric limit. -/
def cap_alpha (alpha_arr : Grid2) (alpha_limit : Option PyScalar) :
    Except PyError Grid2 :=
  match alpha_limit with
  | none => .ok alpha_arr
  | some v =>
    if isNumericInstance v then
      if 0 ≤ numValue v ∧ numValue v ≤ 1 then
        .ok (cap_grid alpha_arr (numValue v))
      else
        .error .valueError
    else
      .error .typeError

/-- One RGBA pixel of a materialized 8-bit image. -/
structure Pixel8 where
  r : ℕ
  g : ℕ
  b : ℕ
  a : ℕ
  deriving DecidableEq, Repr

instance : Inhabited Pixel8 := ⟨⟨0, 0, 0, 0⟩⟩

/-- Model of a PIL image: explicit width, height, colour mode, and pixel
rows (height rows of width pixels each). -/
structure PILImage where
  width : ℕ
  height : ℕ
  mode : String
  pixels : List (List Pixel8)
  deriving DecidableEq, Repr

/-- numpy astype(uint8) applied to a float value: C-style truncation
toward zero, then the wrap-around of the 8-bit integer cast. -/
def npCastUint8 (x : ℚ) : ℕ :=
  ((if 0 ≤ x then ⌊x⌋ else ⌈x⌉) % 256).toNat

/-- Embedding of heatmap_to_grayscale (image.py lines 76-83):
(heatmap*255).astype(uint8), then Image.fromarray with mode L.  A
grayscale pixel is modelled with all three colour channels equal to its
value and an opaque alpha, matching what a later RGBA conversion of the
mode-L image yields. -/
def heatmap_to_grayscale (heatmap : Grid2) : PILImage :=
  ⟨(heatmap.headD []).length, heatmap.length, "L",
    heatmap.map (fun row => row.map (fun v =>
      ⟨npCastUint8 (v * 255), npCastUint8 (v * 255),
        npCastUint8 (v * 255), 255⟩))⟩

/-- Embedding of heatmap_to_rgba (image.py lines 86-93):
(heatmap*255).astype(uint8) channelwise, then Image.fromarray with mode
RGBA. -/
def heatmap_to_rgba (heatmap : Grid3) : PILImage :=
  ⟨(heatmap.headD []).length, heatmap.length, "RGBA",
    heatmap.map (fun row => row.map (fun p =>
      ⟨npCastUint8 (p.r * 255), npCastUint8 (p.g * 255),
        npCastUint8 (p.b * 255), npCastUint8 (p.a * 255)⟩))⟩

/-- Model of the external Pillow primitive Image.resize, per its
documented interface: the size argument is (width, height) and the
result has exactly those dimensions.  Nearest-neighbour sampling stands
in for the resampling filter, whose pixel values no claim depends on. -/
def pil_resize (im : PILImage) (size : ℕ × ℕ) (resample : ℕ) : PILImage :=
  ⟨size.1, size.2, im.mode,
    (List.range size.2).map (fun j =>
      (List.range size.1).map (fun i =>
        (im.pixels.getD (j * im.height / size.2) []).getD
          (i * im.width / size.1) default))⟩

/-- Embedding of resize_over (image.py lines 96-114): spatial_dimensions
is taken as (image.height, image.width) and passed to Image.resize as
its size argument. -/
def resize_over (heatmap : PILImage) (image : PILImage)
    (interpolation : ℕ) : PILImage :=
  let spatial_dimensions := (image.height, image.width)
  pil_resize heatmap spatial_dimensions interpolation

/-- A solid single-colour RGBA image, used for concrete instances. -/
def mkSolid (w h : ℕ) (p : Pixel8) : PILImage :=
  ⟨w, h, "RGBA", List.replicate h (List.replicate w p)⟩

/-- The starting_array argument of update_alpha: absent (None), a numpy
ndarray, or a non-ndarray Python value such as a plain list of rows. -/
inductive StartingOpt where
  | none
  | ndarray (h : Grid2)
  | pylist (h : Grid2)
  deriving DecidableEq, Repr

/-- One row of the alpha channel slice of a rank-3 RGBA array. -/
def alpha_row (row : List Pixel) : List ℚ :=
  row.map Pixel.a

/-- The alpha channel slice image_array[:,:,3] of a rank-3 RGBA array. -/
def alpha_channel (img : Grid3) : Grid2 :=
  img.map alpha_row

/-- One row of the R,G,B channels of a rank-3 RGBA array. -/
def rgb_row (row : List Pixel) : List (ℚ × ℚ × ℚ) :=
  row.map (fun p => (p.r, p.g, p.b))

/-- The R,G,B channels of a rank-3 RGBA array. -/
def rgb_channels (img : Grid3) : List (List (ℚ × ℚ × ℚ)) :=
  img.map rgb_row

/-- One row of the numpy slice assignment image_array[:,:,3] = alpha. -/
def set_alpha_row (row : List Pixel) (arow : List ℚ) : List Pixel :=
  row.zipWith (fun p v => ⟨p.r, p.g, p.b, v⟩) arow

/-- The numpy slice assignment image_array[:,:,3] = alpha (always used
with matching spatial shapes in this pipeline). -/
def set_alpha (img : Grid3) (a : Grid2) : Grid3 :=
  img.zipWith set_alpha_row a

/-- Spatial shapes of a rank-3 array and a rank-2 array agree. -/
def sameShape : Grid3 → Grid2 → Bool
  | [], [] => true
  | r :: rs, s :: ss => r.length == s.length && sameShape rs ss
  | _, _ => false

/-- Embedding of update_alpha (image.py lines 134-156): when
starting_array is a numpy ndarray it becomes the alpha source; any other
value, None or a non-ndarray such as a plain list, falls back to the
image's own alpha channel.  The capped result is written back into the
alpha channel; the in-place write is modelled by returning the updated
array. -/
def update_alpha (image_array : Grid3) (starting_array : StartingOpt)
    (alpha_limit : Option PyScalar) : Except PyError Grid3 :=
  let alpha : Grid2 :=
    match starting_array with
    | .ndarray h => h
    | _ => alpha_channel image_array
  match cap_alpha alpha alpha_limit with
  | .error e => .error e
  | .ok newAlpha => .ok (set_alpha image_array newAlpha)

/-- Embedding of colorize (image.py lines 118-131): apply the colormap
callable to the grayscale heatmap, yielding an RGBA [0, 1] array.  Per
the colorizer contract the callable returns a new array. -/
def colorize (heatmap : Grid2) (colormap : Grid2 → Grid3) : Grid3 :=
  colormap heatmap

/-- The argument of convert_image: a numpy uint8 array, a PIL image, or
some other unsupported Python value. -/
inductive ImgOrArr where
  | nd (g : List (List Pixel8))
  | img (im : PILImage)
  | other (tag : String)
  deriving DecidableEq, Repr

/-- Model of the external Pillow primitive Image.fromarray on a uint8
RGBA array. -/
def pil_fromarray (g : List (List Pixel8)) : PILImage :=
  ⟨(g.headD []).length, g.length, "RGBA", g⟩

/-- Model of the external Pillow primitive convert(mode=RGBA): an image
already in RGBA mode keeps its pixels; otherwise an opaque alpha channel
is installed. -/
def pil_convert_rgba (im : PILImage) : PILImage :=
  if im.mode = "RGBA" then im
  else ⟨im.width, im.height, "RGBA",
    im.pixels.map (fun row => row.map (fun p => ⟨p.r, p.g, p.b, 255⟩))⟩

/-- Source-over blend of two 8-bit RGBA pixels, modelling the external
Pillow primitive Image.alpha_composite on one pixel; no claim depends on
the blended values. -/
def blend8 (bp op : Pixel8) : Pixel8 :=
  let oa : ℚ := (op.a : ℚ) / 255
  let ba : ℚ := (bp.a : ℚ) / 255
  let outA : ℚ := oa + ba * (1 - oa)
  let mix : ℕ → ℕ → ℕ := fun bc oc =>
    if outA = 0 then 0
    else npCastUint8 (((oc : ℚ) * oa + (bc : ℚ) * ba * (1 - oa)) / outA)
  ⟨mix bp.r op.r, mix bp.g op.g, mix bp.b op.b, npCastUint8 (outA * 255)⟩

/-- Model of the external Pillow primitive Image.alpha_composite, per its
documented interface: both images must be RGBA and of identical size,
else ValueError; the result blends the overlay over the base pixelwise. -/
def pil_alpha_composite (base overlay : PILImage) :
    Except PyError PILImage :=
  if base.mode = "RGBA" ∧ overlay.mode = "RGBA" then
    if base.width = overlay.width ∧ base.height = overlay.height then
      .ok ⟨base.width, base.height, "RGBA",
        (base.pixels.zip overlay.pixels).map (fun rows =>
          (rows.1.zip rows.2).map (fun ps => blend8 ps.1 ps.2))⟩
    else .error .valueError
  else .error .valueError

/-- Embedding of convert_image (image.py lines 203-226): a numpy array is
first materialized via Image.fromarray; a PIL image is converted to RGBA
mode; anything else raises TypeError. -/
def convert_image (img : ImgOrArr) : Except PyError PILImage :=
  let img2 := match img with
    | .nd g => ImgOrArr.img (pil_fromarray g)
    | x => x
  match img2 with
  | .img im => .ok (pil_convert_rgba im)
  | _ => .error .typeError

/-- Embedding of overlay_heatmap (image.py lines 229-245): normalise both
images to RGBA, then Image.alpha_composite(image, heatmap) with the
image as base and the heatmap as overlay. -/
def overlay_heatmap (heatmap : PILImage) (image : PILImage) :
    Except PyError PILImage := do
  let h ← convert_image (.img heatmap)
  let i ← convert_image (.img image)
  pil_alpha_composite i h

/-- A Python object held in the store of the heap model: a rank-2 float
array, a rank-3 RGBA float array, or a PIL image. -/
inductive PyObj where
  | arr2 (g : Grid2)
  | arr3 (g : Grid3)
  | pimg (im : PILImage)
  deriving DecidableEq, Repr

/-- The heap of the state-passing embedding: Python objects indexed by
references (list positions). -/
abbrev Store := List PyObj

/-- A simple grayscale-to-RGBA colormap used for concrete instances. -/
def grayColormap (g : Grid2) : Grid3 :=
  g.map (fun row => row.map (fun v => ⟨v, v, v, 1⟩))

/-- Embedding of format_as_image (image.py lines 11-73) in state-passing
style over an explicit store, so that in-place mutation is visible.  The
explanation's heatmap array and source image live in the store at the
given references.  The colormap callable allocates a fresh colorized
array at reference s.length, and the single write of the whole pipeline
— the in-place alpha assignment inside update_alpha — targets exactly
that fresh reference.  The heatmap is read twice, as the colorize input
and again as the starting_array of update_alpha, but never written.  The
final store is returned alongside the result so that the effect on the
inputs is observable, also on the error paths. -/
def format_as_image (s : Store) (heatmapRef imageRef : ℕ)
    (colormap : Grid2 → Grid3) (interpolation : ℕ)
    (alpha_limit : Option PyScalar) :
    Store × Except PyError PILImage :=
  match s[heatmapRef]?, s[imageRef]? with
  | some (.arr2 heat), some (.pimg image) =>
    match update_alpha (colorize heat colormap) (.ndarray heat) alpha_limit with
    | .error e => (s ++ [PyObj.arr3 (colorize heat colormap)], .error e)
    | .ok updated =>
      match overlay_heatmap
          (resize_over (heatmap_to_rgba updated) image interpolation) image with
      | .error e =>
        ((s ++ [PyObj.arr3 (colorize heat colormap)]).set s.length
          (PyObj.arr3 updated), .error e)
      | .ok overlay =>
        ((s ++ [PyObj.arr3 (colorize heat colormap)]).set s.length
          (PyObj.arr3 updated), .ok overlay)
  | _, _ => (s, .error .typeError)

end EliImage

namespace EliImage

/-- Claim C3: for every array and every numeric limit in [0, 1] inclusive,
cap_alpha returns the elementwise minimum of the array and the limit, so
every element of the result is at most the limit. -/
theorem c3_cap_alpha_elementwise_min (a : Grid2) (v : PyScalar)
    (hnum : isNumericInstance v = true)
    (h0 : 0 ≤ numValue v) (h1 : numValue v ≤ 1) :
    cap_alpha a (some v) = .ok (cap_grid a (numValue v)) ∧
      ∀ row ∈ cap_grid a (numValue v), ∀ x ∈ row, x ≤ numValue v := by
  constructor
  · simp [cap_alpha, hnum, h0, h1]
  · intro row hrow x hx
    simp only [cap_grid, List.mem_map] at hrow
    obtain ⟨row0, _, rfl⟩ := hrow
    simp only [List.mem_map] at hx
    obtain ⟨x0, _, rfl⟩ := hx
    exact min_le_right x0 (numValue v)

/-- Concrete instance of c3_cap_alpha_elementwise_min at the array
[[0.9, 0.3]] and the float limit 0.5. -/
theorem c3_cap_alpha_elementwise_min_witness :
    isNumericInstance (.float (1/2)) = true ∧
    (0 : ℚ) ≤ numValue (.float (1/2)) ∧ numValue (.float (1/2)) ≤ 1 ∧
    (cap_alpha [[9/10, 3/10]] (some (.float (1/2))) =
        .ok (cap_grid [[9/10, 3/10]] (numValue (.float (1/2)))) ∧
      ∀ row ∈ cap_grid [[9/10, 3/10]] (numValue (.float (1/2))),
        ∀ x ∈ row, x ≤ numValue (.float (1/2))) :=
  ⟨rfl, by norm_num [numValue], by norm_num [numValue],
    c3_cap_alpha_elementwise_min [[9/10, 3/10]] (.float (1/2))
      rfl (by norm_num [numValue]) (by norm_num [numValue])⟩

/-- Claim C5: for every array, cap_alpha fails with the range error
(Python ValueError) exactly when the numeric limit lies outside [0, 1];
for numeric limits inside [0, 1] no range error is raised. -/
theorem c5_cap_alpha_range_error (a : Grid2) (v : PyScalar)
    (hnum : isNumericInstance v = true) :
    ((numValue v < 0 ∨ 1 < numValue v) →
        cap_alpha a (some v) = .error .valueError) ∧
      (0 ≤ numValue v → numValue v ≤ 1 →
        cap_alpha a (some v) ≠ .error .valueError) := by
  constructor
  · intro hout
    have hcond : ¬ (0 ≤ numValue v ∧ numValue v ≤ 1) := by
      rcases hout with h | h
      · exact fun hc => absurd hc.1 (not_le.mpr h)
      · exact fun hc => absurd hc.2 (not_le.mpr h)
    simp [cap_alpha, hnum, hcond]
  · intro h0 h1
    simp [cap_alpha, hnum, h0, h1]

/-- Concrete instance of c5_cap_alpha_range_error at the array [[0.2]]
and the float limit 1.5 (which is outside [0, 1], so ValueError). -/
theorem c5_cap_alpha_range_error_witness :
    isNumericInstance (.float (3/2)) = true ∧
    ((numValue (.float (3/2)) < 0 ∨ 1 < numValue (.float (3/2))) →
        cap_alpha [[1/5]] (some (.float (3/2))) = .error .valueError) ∧
      (0 ≤ numValue (.float (3/2)) → numValue (.float (3/2)) ≤ 1 →
        cap_alpha [[1/5]] (some (.float (3/2))) ≠ .error .valueError) :=
  ⟨rfl, c5_cap_alpha_range_error [[1/5]] (.float (3/2)) rfl⟩

/-- Claim C6: for every array, cap_alpha fails with TypeError whenever the
limit is present and non-numeric, in particular for the string value x. -/
theorem c6_cap_alpha_type_error (a : Grid2) (v : PyScalar)
    (hnum : isNumericInstance v = false) :
    cap_alpha a (some v) = .error .typeError := by
  simp [cap_alpha, hnum]

/-- Concrete instance of c6_cap_alpha_type_error at the array [[0.2]] and
the string limit x. -/
theorem c6_cap_alpha_type_error_witness :
    isNumericInstance (.str "x") = false ∧
      cap_alpha [[1/5]] (some (.str "x")) = .error .typeError :=
  ⟨rfl, c6_cap_alpha_type_error [[1/5]] (.str "x") rfl⟩

/-- Claim C7: for every array, cap_alpha with limit None returns the input
array unchanged (and, being pure, mutates nothing). -/
theorem c7_cap_alpha_none_identity (a : Grid2) :
    cap_alpha a none = .ok a := rfl

/-- Claim C10: boolean limits pass the isinstance((float, int)) check, so
cap_alpha with True caps at 1, with False caps at 0, and neither raises a
TypeError. -/
theorem c10_cap_alpha_bool_limits (a : Grid2) :
    cap_alpha a (some (.bool true)) = .ok (cap_grid a 1) ∧
    cap_alpha a (some (.bool false)) = .ok (cap_grid a 0) ∧
    cap_alpha a (some (.bool true)) ≠ .error .typeError ∧
    cap_alpha a (some (.bool false)) ≠ .error .typeError := by
  refine ⟨?_, ?_, ?_, ?_⟩ <;>
    simp [cap_alpha, isNumericInstance, numValue, zero_le_one]

/-- Claim C1 (code evaluation at the failing input): resize_over passes
(height, width) to Image.resize, whose size argument is (width, height).
On a 7 by 7 source and a target of height 224 and width 100, the result
has height 100 and width 224 — the transpose of what the claim states —
and the overlay step of the pipeline then fails on the size mismatch. -/
theorem c1_resize_over_transposes_nonsquare_target :
    (resize_over (mkSolid 7 7 ⟨0, 0, 0, 255⟩)
        (mkSolid 100 224 ⟨0, 0, 0, 255⟩) 1).height = 100 ∧
    (resize_over (mkSolid 7 7 ⟨0, 0, 0, 255⟩)
        (mkSolid 100 224 ⟨0, 0, 0, 255⟩) 1).width = 224 ∧
    ¬ ((resize_over (mkSolid 7 7 ⟨0, 0, 0, 255⟩)
          (mkSolid 100 224 ⟨0, 0, 0, 255⟩) 1).height = 224 ∧
       (resize_over (mkSolid 7 7 ⟨0, 0, 0, 255⟩)
          (mkSolid 100 224 ⟨0, 0, 0, 255⟩) 1).width = 100) ∧
    overlay_heatmap
        (resize_over (mkSolid 7 7 ⟨0, 0, 0, 255⟩)
          (mkSolid 100 224 ⟨0, 0, 0, 255⟩) 1)
        (mkSolid 100 224 ⟨0, 0, 0, 255⟩) = .error .valueError :=
  ⟨rfl, rfl, fun hc => absurd (show (100 : ℕ) = 224 from hc.1) (by decide),
    rfl⟩

/-- Claim C2 (counterexample): astype(uint8) truncates rather than
rounds, so a channel value of 0.65 materializes as byte 165, not the
round(0.65*255) = 166 stated by the claim. -/
theorem c2_astype_truncates_not_rounds :
    ((heatmap_to_rgba [[⟨0, 0, 0, 13/20⟩]]).pixels.headD []).headD default =
      ⟨0, 0, 0, 165⟩ ∧
    round ((13/20 : ℚ) * 255) = 166 ∧ (165 : ℤ) ≠ 166 := by
  have h0 : npCastUint8 (0 : ℚ) = 0 := by
    unfold npCastUint8
    norm_num
  have h1 : npCastUint8 ((13/20 : ℚ) * 255) = 165 := by
    unfold npCastUint8
    rw [if_pos (by norm_num)]
    have hf : (⌊(13/20 : ℚ) * 255⌋) = 165 := by norm_num
    rw [hf]
    decide
  refine ⟨?_, by norm_num [round_eq], by decide⟩
  simp [heatmap_to_rgba, h0, h1]

/-- For a channel value in [0, 1], the uint8 cast of x*255 is the floor
of x*255: the value is nonnegative, so truncation is flooring, and it is
at most 255, so the 8-bit wrap-around is the identity. -/
theorem npCastUint8_unit (x : ℚ) (h0 : 0 ≤ x) (h1 : x ≤ 1) :
    npCastUint8 (x * 255) = (⌊x * 255⌋).toNat := by
  unfold npCastUint8
  have hx0 : (0 : ℚ) ≤ x * 255 := by positivity
  rw [if_pos hx0]
  have hf0 : (0 : ℤ) ≤ ⌊x * 255⌋ := Int.floor_nonneg.mpr hx0
  have hle : ⌊x * 255⌋ ≤ 255 := by
    have hx : x * 255 ≤ 255 := by nlinarith
    calc ⌊x * 255⌋ ≤ ⌊(255 : ℚ)⌋ := Int.floor_le_floor hx
    _ = 255 := by norm_num
  rw [Int.emod_eq_of_lt hf0 (by omega)]

/-- Claim C2 (amended): a channel value x in [0, 1] is scaled to the
integer floor(x*255) — C truncation, not rounding — so a capped alpha of
0.65 materializes with alpha channel byte 165. -/
theorem c2_amended_floor_scaling (r g b a : ℚ)
    (hr0 : 0 ≤ r) (hr1 : r ≤ 1) (hg0 : 0 ≤ g) (hg1 : g ≤ 1)
    (hb0 : 0 ≤ b) (hb1 : b ≤ 1) (ha0 : 0 ≤ a) (ha1 : a ≤ 1) :
    (heatmap_to_rgba [[⟨r, g, b, a⟩]]).pixels =
      [[⟨(⌊r * 255⌋).toNat, (⌊g * 255⌋).toNat,
         (⌊b * 255⌋).toNat, (⌊a * 255⌋).toNat⟩]] ∧
    (⌊(13/20 : ℚ) * 255⌋).toNat = 165 := by
  constructor
  · simp [heatmap_to_rgba, npCastUint8_unit r hr0 hr1, npCastUint8_unit g hg0 hg1,
      npCastUint8_unit b hb0 hb1, npCastUint8_unit a ha0 ha1]
  · have hf : (⌊(13/20 : ℚ) * 255⌋) = 165 := by norm_num
    rw [hf]
    rfl

/-- Concrete instance of c2_amended_floor_scaling at a pixel whose capped
alpha is exactly 0.65: the materialized alpha byte is 165. -/
theorem c2_amended_floor_scaling_witness :
    (0 : ℚ) ≤ 13/20 ∧ (13/20 : ℚ) ≤ 1 ∧
    ((heatmap_to_rgba [[⟨0, 0, 0, 13/20⟩]]).pixels =
        [[⟨(⌊(0 : ℚ) * 255⌋).toNat, (⌊(0 : ℚ) * 255⌋).toNat,
           (⌊(0 : ℚ) * 255⌋).toNat, (⌊(13/20 : ℚ) * 255⌋).toNat⟩]] ∧
      (⌊(13/20 : ℚ) * 255⌋).toNat = 165) :=
  ⟨by norm_num, by norm_num,
    c2_amended_floor_scaling 0 0 0 (13/20) le_rfl zero_le_one le_rfl
      zero_le_one le_rfl zero_le_one (by norm_num) (by norm_num)⟩

/-- Slice-assigning a row of alpha values of equal length leaves the
R,G,B components of the pixel row unchanged. -/
theorem rgb_row_set_alpha_row (row : List Pixel) (arow : List ℚ)
    (h : row.length = arow.length) :
    rgb_row (set_alpha_row row arow) = rgb_row row := by
  induction row generalizing arow with
  | nil => simp [set_alpha_row, rgb_row]
  | cons p ps ih =>
    cases arow with
    | nil => simp at h
    | cons v vs =>
      have htail := ih vs (by simpa using h)
      simpa [set_alpha_row, rgb_row] using htail

/-- Slice-assigning a row of alpha values of equal length makes that row
the new alpha row. -/
theorem alpha_row_set_alpha_row (row : List Pixel) (arow : List ℚ)
    (h : row.length = arow.length) :
    alpha_row (set_alpha_row row arow) = arow := by
  induction row generalizing arow with
  | nil =>
    cases arow with
    | nil => simp [set_alpha_row, alpha_row]
    | cons v vs => simp at h
  | cons p ps ih =>
    cases arow with
    | nil => simp at h
    | cons v vs =>
      have htail := ih vs (by simpa using h)
      simpa [set_alpha_row, alpha_row] using htail

/-- The slice assignment image_array[:,:,3] = alpha preserves the R,G,B
channels when the spatial shapes agree. -/
theorem rgb_channels_set_alpha (img : Grid3) (a : Grid2)
    (hs : sameShape img a = true) :
    rgb_channels (set_alpha img a) = rgb_channels img := by
  induction img generalizing a with
  | nil =>
    cases a with
    | nil => rfl
    | cons r rs => simp [sameShape] at hs
  | cons row rows ih =>
    cases a with
    | nil => simp [sameShape] at hs
    | cons arow arows =>
      simp only [sameShape, Bool.and_eq_true, beq_iff_eq] at hs
      simp only [set_alpha, List.zipWith_cons_cons, rgb_channels,
        List.map_cons, List.cons.injEq]
      exact ⟨rgb_row_set_alpha_row row arow hs.1,
        by simpa [set_alpha, rgb_channels] using ih arows hs.2⟩

/-- The slice assignment image_array[:,:,3] = alpha installs exactly the
assigned alpha grid when the spatial shapes agree. -/
theorem alpha_channel_set_alpha (img : Grid3) (a : Grid2)
    (hs : sameShape img a = true) :
    alpha_channel (set_alpha img a) = a := by
  induction img generalizing a with
  | nil =>
    cases a with
    | nil => rfl
    | cons r rs => simp [sameShape] at hs
  | cons row rows ih =>
    cases a with
    | nil => simp [sameShape] at hs
    | cons arow arows =>
      simp only [sameShape, Bool.and_eq_true, beq_iff_eq] at hs
      simp only [set_alpha, List.zipWith_cons_cons, alpha_channel,
        List.map_cons, List.cons.injEq]
      exact ⟨alpha_row_set_alpha_row row arow hs.1,
        by simpa [set_alpha, alpha_channel] using ih arows hs.2⟩

/-- Capping a grid preserves its spatial shape. -/
theorem sameShape_cap_grid (img : Grid3) (a : Grid2) (q : ℚ)
    (hs : sameShape img a = true) :
    sameShape img (cap_grid a q) = true := by
  induction img generalizing a with
  | nil =>
    cases a with
    | nil => rfl
    | cons r rs => simp [sameShape] at hs
  | cons row rows ih =>
    cases a with
    | nil => simp [sameShape] at hs
    | cons arow arows =>
      simp only [sameShape, Bool.and_eq_true, beq_iff_eq] at hs
      simp only [cap_grid, List.map_cons, sameShape, Bool.and_eq_true,
        beq_iff_eq, List.length_map]
      exact ⟨hs.1, by simpa [cap_grid] using ih arows hs.2⟩

/-- Claim C4: for an RGBA array and a starting ndarray of matching
spatial shape, update_alpha with alpha limit 0.5 succeeds, leaves the
R, G, B channels unchanged, and sets the alpha channel to the
elementwise min of the starting array and 0.5. -/
theorem c4_update_alpha_caps_and_preserves_rgb (img : Grid3) (h : Grid2)
    (hs : sameShape img h = true) :
    ∃ out, update_alpha img (.ndarray h) (some (.float (1/2))) = .ok out ∧
      rgb_channels out = rgb_channels img ∧
      alpha_channel out = cap_grid h (1/2) := by
  refine ⟨set_alpha img (cap_grid h (1/2)), ?_, ?_, ?_⟩
  · norm_num [update_alpha, cap_alpha, isNumericInstance, numValue]
  · exact rgb_channels_set_alpha img _ (sameShape_cap_grid img h _ hs)
  · exact alpha_channel_set_alpha img _ (sameShape_cap_grid img h _ hs)

/-- Concrete instance of c4_update_alpha_caps_and_preserves_rgb at a one
pixel image and the starting array [[0.8]]. -/
theorem c4_update_alpha_caps_and_preserves_rgb_witness :
    sameShape [[⟨1, 0, 0, 1⟩]] [[4/5]] = true ∧
    ∃ out, update_alpha [[⟨1, 0, 0, 1⟩]] (.ndarray [[4/5]])
        (some (.float (1/2))) = .ok out ∧
      rgb_channels out = rgb_channels [[⟨1, 0, 0, 1⟩]] ∧
      alpha_channel out = cap_grid [[4/5]] (1/2) :=
  ⟨rfl, c4_update_alpha_caps_and_preserves_rgb [[⟨1, 0, 0, 1⟩]] [[4/5]] rfl⟩

/-- Claim C9: a starting_array that is provided but is not a numpy
ndarray (for example a plain Python list) is silently ignored:
update_alpha behaves exactly as if no starting array had been given,
capping the image's own alpha channel instead, and raises no error for
an in-range numeric limit. -/
theorem c9_update_alpha_ignores_non_ndarray (img : Grid3) (h : Grid2)
    (lim : Option PyScalar) :
    update_alpha img (.pylist h) lim = update_alpha img .none lim ∧
    (∀ q : ℚ, 0 ≤ q → q ≤ 1 →
      update_alpha img (.pylist h) (some (.float q)) =
        .ok (set_alpha img (cap_grid (alpha_channel img) q))) := by
  constructor
  · rfl
  · intro q h0 h1
    simp [update_alpha, cap_alpha, isNumericInstance, numValue, h0, h1]

/-- Concrete instance of c9_update_alpha_ignores_non_ndarray at a one
pixel image, a plain list [[0.4]], and limit 0.5. -/
theorem c9_update_alpha_ignores_non_ndarray_witness :
    (update_alpha [[⟨1, 0, 0, 1⟩]] (.pylist [[2/5]]) none =
        update_alpha [[⟨1, 0, 0, 1⟩]] .none none) ∧
    (0 : ℚ) ≤ 1/2 ∧ (1/2 : ℚ) ≤ 1 ∧
    update_alpha [[⟨1, 0, 0, 1⟩]] (.pylist [[2/5]]) (some (.float (1/2))) =
      .ok (set_alpha [[⟨1, 0, 0, 1⟩]]
        (cap_grid (alpha_channel [[⟨1, 0, 0, 1⟩]]) (1/2))) :=
  ⟨(c9_update_alpha_ignores_non_ndarray [[⟨1, 0, 0, 1⟩]] [[2/5]] none).1,
    by norm_num, by norm_num,
    (c9_update_alpha_ignores_non_ndarray [[⟨1, 0, 0, 1⟩]] [[2/5]] none).2
      (1/2) (by norm_num) (by norm_num)⟩

/-- A store extended with a fresh allocation is unchanged at every
previously valid reference. -/
theorem store_alloc_preserved (s : Store) (x : PyObj) (r : ℕ)
    (hr : r < s.length) :
    (s ++ [x])[r]? = s[r]? := by
  rw [List.getElem?_append, if_pos hr]

/-- A store extended with a fresh allocation, whose fresh cell is then
overwritten in place, is unchanged at every previously valid
reference. -/
theorem store_alloc_write_preserved (s : Store) (x y : PyObj) (r : ℕ)
    (hr : r < s.length) :
    ((s ++ [x]).set s.length y)[r]? = s[r]? := by
  rw [List.getElem?_set_ne (by omega), List.getElem?_append, if_pos hr]

/-- Claim C8: format_as_image does not mutate its inputs.  After the
call the store still holds the callers heatmap array and source image
unchanged at their references, whether the pipeline succeeds or raises;
the single write of the pipeline targets the fresh intermediate array
allocated by the colormap. -/
theorem c8_format_as_image_inputs_not_mutated (s : Store)
    (heatmapRef imageRef : ℕ) (colormap : Grid2 → Grid3)
    (interpolation : ℕ) (alpha_limit : Option PyScalar)
    (hh : heatmapRef < s.length) (hi : imageRef < s.length) :
    (format_as_image s heatmapRef imageRef colormap interpolation
        alpha_limit).1[heatmapRef]? = s[heatmapRef]? ∧
    (format_as_image s heatmapRef imageRef colormap interpolation
        alpha_limit).1[imageRef]? = s[imageRef]? := by
  have key : ∀ r : ℕ, r < s.length →
      (format_as_image s heatmapRef imageRef colormap interpolation
        alpha_limit).1[r]? = s[r]? := by
    intro r hr
    unfold format_as_image
    split
    · split
      · exact store_alloc_preserved s _ r hr
      · split
        · exact store_alloc_write_preserved s _ _ r hr
        · exact store_alloc_write_preserved s _ _ r hr
    · rfl
  exact ⟨key heatmapRef hh, key imageRef hi⟩

/-- Concrete instance of c8_format_as_image_inputs_not_mutated: a two
object store holding a one cell heatmap and a one pixel gray image,
formatted with a gray colormap and alpha limit 1. -/
theorem c8_format_as_image_inputs_not_mutated_witness :
    (0 < ([PyObj.arr2 [[1]],
        PyObj.pimg (mkSolid 1 1 ⟨100, 100, 100, 255⟩)] : Store).length) ∧
    (1 < ([PyObj.arr2 [[1]],
        PyObj.pimg (mkSolid 1 1 ⟨100, 100, 100, 255⟩)] : Store).length) ∧
    ((format_as_image [PyObj.arr2 [[1]],
          PyObj.pimg (mkSolid 1 1 ⟨100, 100, 100, 255⟩)] 0 1
        grayColormap 1 (some (.float 1))).1[0]? =
      ([PyObj.arr2 [[1]],
        PyObj.pimg (mkSolid 1 1 ⟨100, 100, 100, 255⟩)] : Store)[0]? ∧
     (format_as_image [PyObj.arr2 [[1]],
          PyObj.pimg (mkSolid 1 1 ⟨100, 100, 100, 255⟩)] 0 1
        grayColormap 1 (some (.float 1))).1[1]? =
      ([PyObj.arr2 [[1]],
        PyObj.pimg (mkSolid 1 1 ⟨100, 100, 100, 255⟩)] : Store)[1]?) :=
  ⟨by decide, by decide,
    c8_format_as_image_inputs_not_mutated
      [PyObj.arr2 [[1]], PyObj.pimg (mkSolid 1 1 ⟨100, 100, 100, 255⟩)]
      0 1 grayColormap 1 (some (.float 1)) (by decide) (by decide)⟩

end EliImage
